import Mathlib

/-!
Verification of `windows/flutter/generated_plugin_registrant.cc`.

The file defines one function, `RegisterPlugins`, a straight-line sequence of
twelve statements of the form

    XRegisterWithRegistrar(registry->GetRegistrarForPlugin("X"));

The registry and the twelve plugin entry points are external collaborators, so
they are parameters of the embedding.  Every call of a collaborator may change
the state of the world and may fail; a failure aborts the caller (nothing in
the file catches it).  Each call is recorded in a trace together with its
outcome, so that properties of the call sequence can be stated.
-/

namespace PluginRegistrant

/-! ## The external collaborators named by the source -/

/-- The twelve registration entry points called by `RegisterPlugins`
(declared by the twelve plugin headers). -/
inductive EntryPoint
  | DesktopMultiWindowPluginRegisterWithRegistrar
  | FlutterDesktopContextMenuPluginRegisterWithRegistrar
  | FlutterJsPluginRegisterWithRegistrar
  | PermissionHandlerWindowsPluginRegisterWithRegistrar
  | ProxyManagerPluginRegisterWithRegistrar
  | ScreenRetrieverWindowsPluginCApiRegisterWithRegistrar
  | SharePlusWindowsPluginCApiRegisterWithRegistrar
  | UrlLauncherWindowsRegisterWithRegistrar
  | VclibsPluginCApiRegisterWithRegistrar
  | Win32audioPluginCApiRegisterWithRegistrar
  | WindowManagerPluginRegisterWithRegistrar
  | ZstandardWindowsPluginCApiRegisterWithRegistrar
  deriving DecidableEq, Repr

/-- The C identifier of an entry point, as written at its call site. -/
def EntryPoint.symbol : EntryPoint → String
  | .DesktopMultiWindowPluginRegisterWithRegistrar =>
      "DesktopMultiWindowPluginRegisterWithRegistrar"
  | .FlutterDesktopContextMenuPluginRegisterWithRegistrar =>
      "FlutterDesktopContextMenuPluginRegisterWithRegistrar"
  | .FlutterJsPluginRegisterWithRegistrar =>
      "FlutterJsPluginRegisterWithRegistrar"
  | .PermissionHandlerWindowsPluginRegisterWithRegistrar =>
      "PermissionHandlerWindowsPluginRegisterWithRegistrar"
  | .ProxyManagerPluginRegisterWithRegistrar =>
      "ProxyManagerPluginRegisterWithRegistrar"
  | .ScreenRetrieverWindowsPluginCApiRegisterWithRegistrar =>
      "ScreenRetrieverWindowsPluginCApiRegisterWithRegistrar"
  | .SharePlusWindowsPluginCApiRegisterWithRegistrar =>
      "SharePlusWindowsPluginCApiRegisterWithRegistrar"
  | .UrlLauncherWindowsRegisterWithRegistrar =>
      "UrlLauncherWindowsRegisterWithRegistrar"
  | .VclibsPluginCApiRegisterWithRegistrar =>
      "VclibsPluginCApiRegisterWithRegistrar"
  | .Win32audioPluginCApiRegisterWithRegistrar =>
      "Win32audioPluginCApiRegisterWithRegistrar"
  | .WindowManagerPluginRegisterWithRegistrar =>
      "WindowManagerPluginRegisterWithRegistrar"
  | .ZstandardWindowsPluginCApiRegisterWithRegistrar =>
      "ZstandardWindowsPluginCApiRegisterWithRegistrar"

/-- The plugin headers included by the file, in textual order (lines 9-20). -/
def pluginHeaders : List String :=
  [ "desktop_multi_window/desktop_multi_window_plugin.h",
    "flutter_desktop_context_menu/flutter_desktop_context_menu_plugin.h",
    "flutter_js/flutter_js_plugin.h",
    "permission_handler_windows/permission_handler_windows_plugin.h",
    "proxy_manager/proxy_manager_plugin.h",
    "screen_retriever_windows/screen_retriever_windows_plugin_c_api.h",
    "share_plus/share_plus_windows_plugin_c_api.h",
    "url_launcher_windows/url_launcher_windows.h",
    "vclibs/vclibs_plugin_c_api.h",
    "win32audio/win32audio_plugin_c_api.h",
    "window_manager/window_manager_plugin.h",
    "zstandard_windows/zstandard_windows_plugin_c_api.h" ]

/-! ## Execution model -/

/-- One call made by `RegisterPlugins`, with what it was given and how it
ended: `.ok` is a normal return, `.error` a failure raised by the callee. -/
inductive Event (ε R : Type)
  | lookup (name : String) (outcome : Except ε R)
  | register (entry : EntryPoint) (registrar : R) (outcome : Except ε Unit)

/-- The result of running a computation: how it ended, the calls it made in
order, and the state of the world it left behind. -/
structure Result (σ ε R α : Type) where
  outcome : Except ε α
  trace : List (Event ε R)
  world : σ

/-- A computation over a world state `σ` that may fail with an `ε` and records
its external calls. -/
def Run (σ ε R α : Type) : Type := σ → Result σ ε R α

/-- Return a value without touching the world. -/
def Run.pure {σ ε R α : Type} (a : α) : Run σ ε R α :=
  fun w => { outcome := .ok a, trace := [], world := w }

/-- Sequencing: a failure of the first computation ends the whole computation
with that failure, keeping the trace and the world reached so far. -/
def Run.bind {σ ε R α β : Type} (m : Run σ ε R α) (f : α → Run σ ε R β) :
    Run σ ε R β :=
  fun w =>
    let r := m w
    match r.outcome with
    | .ok a =>
        let r2 := f a r.world
        { outcome := r2.outcome, trace := r.trace ++ r2.trace, world := r2.world }
    | .error e => { outcome := .error e, trace := r.trace, world := r.world }

instance {σ ε R : Type} : Monad (Run σ ε R) where
  pure := Run.pure
  bind := Run.bind

/-- The registry handed to `RegisterPlugins` (`flutter::PluginRegistry*`): the
one method the file uses.  A lookup reads and may change the world, and
either returns a registrar or fails. -/
structure PluginRegistry (σ ε R : Type) where
  GetRegistrarForPlugin : String → σ → Except ε R × σ

/-- The plugins linked into the application: the behaviour of each entry point
on the registrar it is handed.  It may change the world and may fail. -/
structure Plugins (σ ε R : Type) where
  RegisterWithRegistrar : EntryPoint → R → σ → Except ε Unit × σ

/-- The call `registry->GetRegistrarForPlugin(name)`. -/
def GetRegistrarForPlugin {σ ε R : Type} (registry : PluginRegistry σ ε R)
    (name : String) : Run σ ε R R :=
  fun w =>
    let out := registry.GetRegistrarForPlugin name w
    { outcome := out.1, trace := [Event.lookup name out.1], world := out.2 }

/-- The call `entry(registrar)` of a plugin entry point. -/
def call {σ ε R : Type} (plugins : Plugins σ ε R) (entry : EntryPoint)
    (registrar : R) : Run σ ε R Unit :=
  fun w =>
    let out := plugins.RegisterWithRegistrar entry registrar w
    { outcome := out.1, trace := [Event.register entry registrar out.1], world := out.2 }

/-- The function `RegisterPlugins` of the source, statement by statement. -/
def RegisterPlugins {σ ε R : Type} (plugins : Plugins σ ε R)
    (registry : PluginRegistry σ ε R) : Run σ ε R Unit := do
  call plugins EntryPoint.DesktopMultiWindowPluginRegisterWithRegistrar
    (← GetRegistrarForPlugin registry "DesktopMultiWindowPlugin")
  call plugins EntryPoint.FlutterDesktopContextMenuPluginRegisterWithRegistrar
    (← GetRegistrarForPlugin registry "FlutterDesktopContextMenuPlugin")
  call plugins EntryPoint.FlutterJsPluginRegisterWithRegistrar
    (← GetRegistrarForPlugin registry "FlutterJsPlugin")
  call plugins EntryPoint.PermissionHandlerWindowsPluginRegisterWithRegistrar
    (← GetRegistrarForPlugin registry "PermissionHandlerWindowsPlugin")
  call plugins EntryPoint.ProxyManagerPluginRegisterWithRegistrar
    (← GetRegistrarForPlugin registry "ProxyManagerPlugin")
  call plugins EntryPoint.ScreenRetrieverWindowsPluginCApiRegisterWithRegistrar
    (← GetRegistrarForPlugin registry "ScreenRetrieverWindowsPluginCApi")
  call plugins EntryPoint.SharePlusWindowsPluginCApiRegisterWithRegistrar
    (← GetRegistrarForPlugin registry "SharePlusWindowsPluginCApi")
  call plugins EntryPoint.UrlLauncherWindowsRegisterWithRegistrar
    (← GetRegistrarForPlugin registry "UrlLauncherWindows")
  call plugins EntryPoint.VclibsPluginCApiRegisterWithRegistrar
    (← GetRegistrarForPlugin registry "VclibsPluginCApi")
  call plugins EntryPoint.Win32audioPluginCApiRegisterWithRegistrar
    (← GetRegistrarForPlugin registry "Win32audioPluginCApi")
  call plugins EntryPoint.WindowManagerPluginRegisterWithRegistrar
    (← GetRegistrarForPlugin registry "WindowManagerPlugin")
  call plugins EntryPoint.ZstandardWindowsPluginCApiRegisterWithRegistrar
    (← GetRegistrarForPlugin registry "ZstandardWindowsPluginCApi")

/-! ## The call sites as data -/

/-- One statement of `RegisterPlugins`: the entry point called and the name
string passed to the lookup that feeds it. -/
abbrev CallSite := EntryPoint × String

/-- The statement `entry(registry->GetRegistrarForPlugin(name))`. -/
def step {σ ε R : Type} (plugins : Plugins σ ε R) (registry : PluginRegistry σ ε R)
    (c : CallSite) : Run σ ε R Unit := do
  call plugins c.1 (← GetRegistrarForPlugin registry c.2)

/-- A sequence of statements, executed in list order. -/
def runSteps {σ ε R : Type} (plugins : Plugins σ ε R) (registry : PluginRegistry σ ε R) :
    List CallSite → Run σ ε R Unit
  | [] => Run.pure ()
  | c :: cs => Run.bind (step plugins registry c) (fun _ => runSteps plugins registry cs)

/-- The twelve statements of `RegisterPlugins`, in textual order (lines 23-46). -/
def callSites : List CallSite :=
  [ (EntryPoint.DesktopMultiWindowPluginRegisterWithRegistrar,
      "DesktopMultiWindowPlugin"),
    (EntryPoint.FlutterDesktopContextMenuPluginRegisterWithRegistrar,
      "FlutterDesktopContextMenuPlugin"),
    (EntryPoint.FlutterJsPluginRegisterWithRegistrar,
      "FlutterJsPlugin"),
    (EntryPoint.PermissionHandlerWindowsPluginRegisterWithRegistrar,
      "PermissionHandlerWindowsPlugin"),
    (EntryPoint.ProxyManagerPluginRegisterWithRegistrar,
      "ProxyManagerPlugin"),
    (EntryPoint.ScreenRetrieverWindowsPluginCApiRegisterWithRegistrar,
      "ScreenRetrieverWindowsPluginCApi"),
    (EntryPoint.SharePlusWindowsPluginCApiRegisterWithRegistrar,
      "SharePlusWindowsPluginCApi"),
    (EntryPoint.UrlLauncherWindowsRegisterWithRegistrar,
      "UrlLauncherWindows"),
    (EntryPoint.VclibsPluginCApiRegisterWithRegistrar,
      "VclibsPluginCApi"),
    (EntryPoint.Win32audioPluginCApiRegisterWithRegistrar,
      "Win32audioPluginCApi"),
    (EntryPoint.WindowManagerPluginRegisterWithRegistrar,
      "WindowManagerPlugin"),
    (EntryPoint.ZstandardWindowsPluginCApiRegisterWithRegistrar,
      "ZstandardWindowsPluginCApi") ]

/-! ## Observations on traces -/

/-- The names passed to `GetRegistrarForPlugin`, in call order. -/
def requested {ε R : Type} : List (Event ε R) → List String
  | [] => []
  | Event.lookup name _ :: t => name :: requested t
  | Event.register _ _ _ :: t => requested t

/-- The entry points invoked, in call order. -/
def invoked {ε R : Type} : List (Event ε R) → List EntryPoint
  | [] => []
  | Event.lookup _ _ :: t => invoked t
  | Event.register entry _ _ :: t => entry :: invoked t

/-- The failure raised by a call, if it raised one. -/
def Event.failure {ε R : Type} : Event ε R → Option ε
  | .lookup _ (.error e) => some e
  | .lookup _ (.ok _) => none
  | .register _ _ (.error e) => some e
  | .register _ _ (.ok _) => none

/-- The outcome recorded in the event is what the collaborator returned, in
some state of the world, on the arguments recorded in the event. -/
def Event.Genuine {σ ε R : Type} (plugins : Plugins σ ε R) (registry : PluginRegistry σ ε R) :
    Event ε R → Prop
  | .lookup name out => ∃ w, (registry.GetRegistrarForPlugin name w).1 = out
  | .register entry r out => ∃ w, (plugins.RegisterWithRegistrar entry r w).1 = out

/-- The suffix shared by the names of all registration entry points. -/
def registerSuffix : String := "RegisterWithRegistrar"

/-- The plugin an entry point belongs to: `X` for `XRegisterWithRegistrar`. -/
def EntryPoint.plugin (entry : EntryPoint) : String :=
  entry.symbol.dropRight registerSuffix.length

/-- The bytes of a string (its UTF-8 encoding). -/
def bytes (s : String) : List Nat :=
  s.toUTF8.data.toList.map UInt8.toNat

/-- The names passed to the lookups of `RegisterPlugins`, in textual order. -/
def pluginNames : List String := callSites.map Prod.snd

/-- The entry points called by `RegisterPlugins`, in textual order. -/
def entryPoints : List EntryPoint := callSites.map Prod.fst

/-- Capitalise the words of a `snake_case` name and drop the underscores. -/
def camel : Bool → List Char → List Char
  | _, [] => []
  | up, c :: cs =>
      if c = '_' then camel true cs
      else (if up then c.toUpper else c) :: camel false cs

/-- The plugin a header `dir/some_name.h` declares under the naming scheme of
the generated file: the file name without directory and extension, written
in camel case (`window_manager_plugin.h` declares `WindowManagerPlugin`). -/
def headerPlugin (header : String) : String :=
  String.mk (camel true
    ((header.data.reverse.takeWhile (fun c => c ≠ '/')).reverse.dropLast.dropLast))

/-! ## Concrete collaborators -/

/-- A registry whose registrar for a plugin is the plugin's name; it never
fails and leaves the world alone. -/
def echoRegistry : PluginRegistry Nat String String :=
  { GetRegistrarForPlugin := fun name w => (.ok name, w) }

/-- A registry whose every lookup fails and leaves the world alone. -/
def failingRegistry : PluginRegistry Nat String String :=
  { GetRegistrarForPlugin := fun _ w => (.error "no registrar", w) }

/-- Plugins whose registration always succeeds and counts itself in the world. -/
def countingPlugins : Plugins Nat String String :=
  { RegisterWithRegistrar := fun _ _ w => (.ok (), w + 1) }

/-- Plugins as `countingPlugins`, except that the registration of
`FlutterJsPlugin` fails. -/
def failingPlugins : Plugins Nat String String :=
  { RegisterWithRegistrar := fun entry _ w =>
      if entry = EntryPoint.FlutterJsPluginRegisterWithRegistrar then
        (.error "FlutterJsPlugin failed", w)
      else (.ok (), w + 1) }

/-- Modelled from the spec: the registry's own state is not part of the source
(the registry is an external object that maps plugin names to registrar
handles).  The explicit registry state records, for each plugin
name, the plugin installed under it, if any. -/
abbrev Installed : Type := String → Option EntryPoint

/-- Modelled from the spec: the lookup of the explicit registry.  The registrar
for a name is a handle on that name's slot; a lookup installs nothing. -/
def slotRegistry : PluginRegistry Installed Empty String :=
  { GetRegistrarForPlugin := fun name st => (.ok name, st) }

/-- Modelled from the spec: a plugin's registration "only installs that plugin
under its own name", the slot of the registrar it is handed. -/
def installingPlugins : Plugins Installed Empty String :=
  { RegisterWithRegistrar := fun entry slot st =>
      (.ok (), fun k => if k = slot then some entry else st k) }

/-- A trace and outcome that a run of the statements `l` can produce: the
statements are executed in order, each as a lookup followed by the call of its
entry point on the registrar just returned, and the run stops at the first
failure, which becomes its outcome. -/
inductive Conforms {ε R : Type} : List CallSite → List (Event ε R) → Except ε Unit → Prop
  | done : Conforms [] [] (.ok ())
  | lookupFails (c : CallSite) (cs : List CallSite) (e : ε) :
      Conforms (c :: cs) [Event.lookup c.2 (.error e)] (.error e)
  | registerFails (c : CallSite) (cs : List CallSite) (r : R) (e : ε) :
      Conforms (c :: cs) [Event.lookup c.2 (.ok r), Event.register c.1 r (.error e)] (.error e)
  | next (c : CallSite) (cs : List CallSite) (r : R) (t : List (Event ε R))
      (o : Except ε Unit) (h : Conforms cs t o) :
      Conforms (c :: cs) (Event.lookup c.2 (.ok r) :: Event.register c.1 r (.ok ()) :: t) o

end PluginRegistrant

namespace PluginRegistrant

/-! ## The source function as a sequence of call sites -/

theorem Run.bind_pure_unit {σ ε R : Type} (m : Run σ ε R Unit) :
    Run.bind m (fun _ => Run.pure ()) = m := by
  funext w
  unfold Run.bind Run.pure
  rcases h : m w with ⟨o, t, w2⟩
  cases o <;> simp

theorem Run.bind_assoc {σ ε R α β γ : Type} (m : Run σ ε R α) (f : α → Run σ ε R β)
    (g : β → Run σ ε R γ) :
    Run.bind (Run.bind m f) g = Run.bind m (fun a => Run.bind (f a) g) := by
  funext w
  unfold Run.bind
  rcases h : m w with ⟨o, t, w2⟩
  cases o with
  | error e => simp
  | ok a =>
    simp only
    rcases h2 : f a w2 with ⟨o2, t2, w3⟩
    cases o2 <;> simp

theorem bind_eq_runBind {σ ε R α β : Type} (m : Run σ ε R α) (f : α → Run σ ε R β) :
    m >>= f = Run.bind m f := rfl

/-- The source function is the sequence of its twelve call sites. -/
theorem RegisterPlugins_eq_runSteps {σ ε R : Type} (plugins : Plugins σ ε R)
    (registry : PluginRegistry σ ε R) :
    RegisterPlugins plugins registry = runSteps plugins registry callSites := by
  simp only [RegisterPlugins, callSites, runSteps, step, Run.bind_pure_unit,
    bind_eq_runBind, Run.bind_assoc]

/-! ## Every run conforms to the call sites -/

theorem runSteps_conforms {σ ε R : Type} (plugins : Plugins σ ε R)
    (registry : PluginRegistry σ ε R) (l : List CallSite) :
    ∀ w : σ, Conforms l (runSteps plugins registry l w).trace
      (runSteps plugins registry l w).outcome := by
  induction l with
  | nil => intro w; exact Conforms.done
  | cons c cs ih =>
    intro w
    simp only [runSteps, step, bind_eq_runBind, Run.bind, GetRegistrarForPlugin, call]
    rcases h1 : registry.GetRegistrarForPlugin c.2 w with ⟨o1, w1⟩
    cases o1 with
    | error e => exact Conforms.lookupFails c cs e
    | ok r =>
      simp only
      rcases h2 : plugins.RegisterWithRegistrar c.1 r w1 with ⟨o2, w2⟩
      cases o2 with
      | error e => exact Conforms.registerFails c cs r e
      | ok u => exact Conforms.next c cs r _ _ (ih w2)

/-- A run that returns normally made every lookup and every call. -/
theorem Conforms.of_ok {ε R : Type} {l : List CallSite} {t : List (Event ε R)}
    {o : Except ε Unit} (h : Conforms l t o) (ho : o = .ok ()) :
    requested t = l.map Prod.snd ∧ invoked t = l.map Prod.fst ∧
      t.length = 2 * l.length ∧ ∀ ev ∈ t, ev.failure = none := by
  induction h with
  | done => simp [requested, invoked]
  | lookupFails c cs e => cases ho
  | registerFails c cs r e => cases ho
  | next c cs r t o h ih =>
    obtain ⟨h1, h2, h3, h4⟩ := ih ho
    refine ⟨by simp [requested, h1], by simp [invoked, h2], by simp [h3]; omega, ?_⟩
    intro ev hev
    simp only [List.mem_cons] at hev
    rcases hev with rfl | rfl | hev
    · rfl
    · rfl
    · exact h4 ev hev

/-- Whatever the outcome, the calls made are an initial part of the call sites. -/
theorem Conforms.initial {ε R : Type} {l : List CallSite} {t : List (Event ε R)}
    {o : Except ε Unit} (h : Conforms l t o) :
    requested t <+: l.map Prod.snd ∧ invoked t <+: l.map Prod.fst := by
  induction h with
  | done => simp [requested, invoked]
  | lookupFails c cs e =>
    exact ⟨⟨cs.map Prod.snd, by simp [requested]⟩, ⟨(c :: cs).map Prod.fst, by simp [invoked]⟩⟩
  | registerFails c cs r e =>
    exact ⟨⟨cs.map Prod.snd, by simp [requested]⟩, ⟨cs.map Prod.fst, by simp [invoked]⟩⟩
  | next c cs r t o h ih =>
    obtain ⟨⟨a, ha⟩, ⟨b, hb⟩⟩ := ih
    exact ⟨⟨a, by simp [requested, ← ha]⟩, ⟨b, by simp [invoked, ← hb]⟩⟩

/-- A run that fails stops at the failing call: everything before it returned
normally, the failing call is the last event and its failure is the outcome. -/
theorem Conforms.of_error {ε R : Type} {l : List CallSite} {t : List (Event ε R)}
    {o : Except ε Unit} (h : Conforms l t o) (e : ε) (ho : o = .error e) :
    ∃ (k : Nat) (c : CallSite) (pre : List (Event ε R)) (last : Event ε R),
      l[k]? = some c ∧ t = pre ++ [last] ∧ (∀ ev ∈ pre, ev.failure = none) ∧
      last.failure = some e ∧ invoked pre = (l.take k).map Prod.fst ∧
      (last = Event.lookup c.2 (.error e) ∨ ∃ r, last = Event.register c.1 r (.error e)) := by
  induction h with
  | done => cases ho
  | lookupFails c cs e2 =>
    cases ho
    exact ⟨0, c, [], _, by simp, rfl, by simp, rfl, by simp [invoked], Or.inl rfl⟩
  | registerFails c cs r e2 =>
    cases ho
    refine ⟨0, c, [Event.lookup c.2 (.ok r)], _, by simp, rfl, ?_, rfl, by simp [invoked],
      Or.inr ⟨r, rfl⟩⟩
    intro ev hev
    simp only [List.mem_singleton] at hev
    subst hev
    rfl
  | next c cs r t o h ih =>
    obtain ⟨k, c2, pre, last, h1, h2, h3, h4, h5, h6⟩ := ih ho
    refine ⟨k + 1, c2, Event.lookup c.2 (.ok r) :: Event.register c.1 r (.ok ()) :: pre, last,
      by simpa using h1, by simp [h2], ?_, h4, by simp [invoked, h5], h6⟩
    intro ev hev
    simp only [List.mem_cons] at hev
    rcases hev with rfl | rfl | hev
    · rfl
    · rfl
    · exact h3 ev hev

/-- Every call of an entry point comes right after the lookup of its call
site and is handed the registrar that lookup returned. -/
theorem Conforms.paired {ε R : Type} {l : List CallSite} {t : List (Event ε R)}
    {o : Except ε Unit} (h : Conforms l t o) :
    ∀ (i : Nat) (entry : EntryPoint) (r : R) (out : Except ε Unit),
      t[i]? = some (Event.register entry r out) →
      ∃ j name, i = j + 1 ∧ (entry, name) ∈ l ∧ t[j]? = some (Event.lookup name (.ok r)) := by
  induction h with
  | done => intro i entry r out hi; simp at hi
  | lookupFails c cs e =>
    intro i entry r out hi
    rcases i with _ | i <;> simp at hi
  | registerFails c cs r2 e =>
    intro i entry r out hi
    rcases i with _ | _ | i
    · simp at hi
    · simp only [List.getElem?_cons_succ, List.getElem?_cons_zero, Option.some.injEq,
        Event.register.injEq] at hi
      obtain ⟨rfl, rfl, -⟩ := hi
      exact ⟨0, c.2, rfl, by simp, rfl⟩
    · simp at hi
  | next c cs r2 t o h ih =>
    intro i entry r out hi
    rcases i with _ | _ | i
    · simp at hi
    · simp only [List.getElem?_cons_succ, List.getElem?_cons_zero, Option.some.injEq,
        Event.register.injEq] at hi
      obtain ⟨rfl, rfl, -⟩ := hi
      exact ⟨0, c.2, rfl, by simp, rfl⟩
    · simp only [List.getElem?_cons_succ] at hi
      obtain ⟨j, name, hj, hmem, hlook⟩ := ih i entry r out hi
      exact ⟨j + 2, name, by omega, List.mem_cons_of_mem _ hmem, by simpa using hlook⟩

/-- The trace records what the collaborators really returned. -/
theorem runSteps_genuine {σ ε R : Type} (plugins : Plugins σ ε R)
    (registry : PluginRegistry σ ε R) (l : List CallSite) :
    ∀ w : σ, ∀ ev ∈ (runSteps plugins registry l w).trace, ev.Genuine plugins registry := by
  induction l with
  | nil => intro w ev hev; simp [runSteps, Run.pure] at hev
  | cons c cs ih =>
    intro w ev
    simp only [runSteps, step, bind_eq_runBind, Run.bind, GetRegistrarForPlugin, call]
    rcases h1 : registry.GetRegistrarForPlugin c.2 w with ⟨o1, w1⟩
    cases o1 with
    | error e =>
      intro hev
      simp only [List.mem_singleton] at hev
      subst hev
      exact ⟨w, by rw [h1]⟩
    | ok r =>
      simp only
      rcases h2 : plugins.RegisterWithRegistrar c.1 r w1 with ⟨o2, w2⟩
      cases o2 with
      | error e =>
        intro hev
        simp only [List.mem_cons, List.mem_singleton, List.append_nil, List.singleton_append,
          List.not_mem_nil, or_false] at hev
        rcases hev with rfl | rfl
        · exact ⟨w, by rw [h1]⟩
        · exact ⟨w1, by rw [h2]⟩
      | ok u =>
        intro hev
        simp only [List.mem_cons, List.singleton_append, List.cons_append, List.nil_append]
          at hev
        rcases hev with rfl | rfl | hev
        · exact ⟨w, by rw [h1]⟩
        · exact ⟨w1, by rw [h2]⟩
        · exact ih w2 ev hev

/-! ## Facts about the call sites -/

set_option maxRecDepth 8000 in
theorem callSites_plugin : ∀ c ∈ callSites, c.1.plugin = c.2 := by
  decide

set_option maxRecDepth 8000 in
theorem callSites_symbol : ∀ c ∈ callSites, c.1.symbol = c.2 ++ registerSuffix := by
  decide

theorem pluginNames_sorted : List.Sorted (fun a b => bytes a < bytes b) pluginNames := by
  decide

theorem pluginNames_nodup : pluginNames.Nodup := by
  decide

theorem entryPoints_nodup : entryPoints.Nodup := by
  decide

theorem mem_entryPoints (entry : EntryPoint) : entry ∈ entryPoints := by
  cases entry <;> decide

theorem mem_invoked {ε R : Type} (entry : EntryPoint) (t : List (Event ε R)) :
    entry ∈ invoked t → ∃ r out, Event.register entry r out ∈ t := by
  induction t with
  | nil => simp [invoked]
  | cons ev t ih =>
    cases ev with
    | lookup name out =>
      intro h
      obtain ⟨r, o, hmem⟩ := ih (by simpa [invoked] using h)
      exact ⟨r, o, List.mem_cons_of_mem _ hmem⟩
    | register e2 r2 o2 =>
      intro h
      simp only [invoked, List.mem_cons] at h
      rcases h with rfl | h
      · exact ⟨r2, o2, List.mem_cons_self _ _⟩
      · obtain ⟨r, o, hmem⟩ := ih h
        exact ⟨r, o, List.mem_cons_of_mem _ hmem⟩

/-! ## The explicit registry state -/

theorem runSteps_slot_cons (c : CallSite) (cs : List CallSite) (st : Installed) :
    runSteps installingPlugins slotRegistry (c :: cs) st =
      { outcome := (runSteps installingPlugins slotRegistry cs
            (fun k => if k = c.2 then some c.1 else st k)).outcome,
        trace := Event.lookup c.2 (.ok c.2) :: Event.register c.1 c.2 (.ok ()) ::
          (runSteps installingPlugins slotRegistry cs
            (fun k => if k = c.2 then some c.1 else st k)).trace,
        world := (runSteps installingPlugins slotRegistry cs
            (fun k => if k = c.2 then some c.1 else st k)).world } := rfl

/-- Statements with pairwise distinct names install each plugin under its name
and leave every other slot as it was. -/
theorem runSteps_slot_world (l : List CallSite) (hn : (l.map Prod.snd).Nodup) :
    ∀ st : Installed,
      (runSteps installingPlugins slotRegistry l st).outcome = .ok () ∧
      (∀ c ∈ l, (runSteps installingPlugins slotRegistry l st).world c.2 = some c.1) ∧
      (∀ k, k ∉ l.map Prod.snd →
        (runSteps installingPlugins slotRegistry l st).world k = st k) := by
  induction l with
  | nil => intro st; simp [runSteps, Run.pure]
  | cons c cs ih =>
    intro st
    rw [List.map_cons, List.nodup_cons] at hn
    obtain ⟨hc, hcs⟩ := hn
    obtain ⟨h1, h2, h3⟩ := ih hcs (fun k => if k = c.2 then some c.1 else st k)
    rw [runSteps_slot_cons]
    refine ⟨h1, ?_, ?_⟩
    · intro d hd
      rcases List.mem_cons.mp hd with rfl | hd
      · simp only
        rw [h3 _ hc]
        simp
      · exact h2 d hd
    · intro k hk
      rw [List.map_cons, List.mem_cons, not_or] at hk
      simp only
      rw [h3 k hk.2]
      simp [hk.1]

/-- The order of statements with pairwise distinct names does not matter. -/
theorem runSteps_slot_perm (l l2 : List CallSite) (hp : l.Perm l2)
    (hn : (l2.map Prod.snd).Nodup) (st : Installed) :
    (runSteps installingPlugins slotRegistry l st).world =
      (runSteps installingPlugins slotRegistry l2 st).world := by
  have hn1 : (l.map Prod.snd).Nodup := (hp.map Prod.snd).nodup_iff.mpr hn
  obtain ⟨-, a2, a3⟩ := runSteps_slot_world l hn1 st
  obtain ⟨-, b2, b3⟩ := runSteps_slot_world l2 hn st
  funext k
  by_cases hk : k ∈ l2.map Prod.snd
  · obtain ⟨c, hc, rfl⟩ := List.mem_map.mp hk
    rw [a2 c (hp.mem_iff.mpr hc), b2 c hc]
  · have hk1 : k ∉ l.map Prod.snd := fun h => hk ((hp.map Prod.snd).mem_iff.mp h)
    rw [a3 k hk1, b3 k hk]

theorem callSites_name_injective :
    ∀ a ∈ callSites, ∀ b ∈ callSites, a.2 = b.2 → a = b := by
  decide

/-! ## The claims -/

/-- C1. In every run of `RegisterPlugins`, whatever the registry and the
plugins do, each invocation of an entry point `XRegisterWithRegistrar` comes
immediately after the lookup `GetRegistrarForPlugin("X")` for that same plugin
`X` and receives exactly the registrar that lookup returned; no name is looked
up twice, so that lookup is the only one made for `X`; and in a run that
returns normally every one of the twelve entry points is invoked in this way. -/
theorem entry_point_receives_own_registrar {σ ε R : Type} (plugins : Plugins σ ε R)
    (registry : PluginRegistry σ ε R) (w : σ) :
    (∀ (i : Nat) (entry : EntryPoint) (r : R) (out : Except ε Unit),
        (RegisterPlugins plugins registry w).trace[i]? = some (Event.register entry r out) →
        ∃ j, i = j + 1 ∧
          (RegisterPlugins plugins registry w).trace[j]? =
            some (Event.lookup entry.plugin (.ok r))) ∧
    (requested (RegisterPlugins plugins registry w).trace).Nodup ∧
    ((RegisterPlugins plugins registry w).outcome = .ok () →
      ∀ entry : EntryPoint, ∃ (i : Nat) (r : R),
        (RegisterPlugins plugins registry w).trace[i]? =
          some (Event.register entry r (.ok ()))) := by
  rw [RegisterPlugins_eq_runSteps]
  have hc := runSteps_conforms plugins registry callSites w
  refine ⟨?_, ?_, ?_⟩
  · intro i entry r out hi
    obtain ⟨j, name, hj, hmem, hlook⟩ := hc.paired i entry r out hi
    have hname := callSites_plugin (entry, name) hmem
    simp only at hname
    exact ⟨j, hj, by rw [hname]; exact hlook⟩
  · exact pluginNames_nodup.sublist hc.initial.1.sublist
  · intro hok entry
    obtain ⟨-, hinv, -, hnone⟩ := hc.of_ok hok
    have hmem : entry ∈ invoked (runSteps plugins registry callSites w).trace := by
      rw [hinv]; exact mem_entryPoints entry
    obtain ⟨r, out, hev⟩ := mem_invoked entry _ hmem
    obtain ⟨i, hi⟩ := List.getElem?_of_mem hev
    have hout : out = .ok () := by
      have := hnone _ hev
      cases out with
      | error e => simp [Event.failure] at this
      | ok u => rfl
    exact ⟨i, r, by rw [hi, hout]⟩

/-- Witness of C1: with the echo registry and the counting plugins the run
returns normally, and `WindowManagerPluginRegisterWithRegistrar` is invoked. -/
theorem entry_point_receives_own_registrar_witness :
    (RegisterPlugins countingPlugins echoRegistry 0).outcome = .ok () ∧
    ∃ (i : Nat) (r : String), (RegisterPlugins countingPlugins echoRegistry 0).trace[i]? =
      some (Event.register EntryPoint.WindowManagerPluginRegisterWithRegistrar r (.ok ())) :=
  ⟨rfl, (entry_point_receives_own_registrar countingPlugins echoRegistry 0).2.2 rfl
    EntryPoint.WindowManagerPluginRegisterWithRegistrar⟩

/-- C2, as amended.  A call of `RegisterPlugins` that returns normally requests
a registrar for exactly the twelve listed names, each exactly once, and invokes
each of the twelve entry points exactly once, none omitted: twelve lookups and
twelve registrations, twenty-four calls in all, one lookup per plugin header
included by the file (the i-th name requested is the plugin declared by the
i-th header).  In every call, returning or not, no name is requested twice, no
name other than the twelve listed is requested, and no entry point is invoked
twice. -/
theorem twelve_lookups_twelve_registrations {σ ε R : Type} (plugins : Plugins σ ε R)
    (registry : PluginRegistry σ ε R) (w : σ) :
    (∀ name : String,
      (requested (RegisterPlugins plugins registry w).trace).count name ≤ 1) ∧
    (∀ name ∈ requested (RegisterPlugins plugins registry w).trace,
      name ∈ ["DesktopMultiWindowPlugin", "FlutterDesktopContextMenuPlugin",
        "FlutterJsPlugin", "PermissionHandlerWindowsPlugin", "ProxyManagerPlugin",
        "ScreenRetrieverWindowsPluginCApi", "SharePlusWindowsPluginCApi",
        "UrlLauncherWindows", "VclibsPluginCApi", "Win32audioPluginCApi",
        "WindowManagerPlugin", "ZstandardWindowsPluginCApi"]) ∧
    (∀ entry : EntryPoint,
      (invoked (RegisterPlugins plugins registry w).trace).count entry ≤ 1) ∧
    ((RegisterPlugins plugins registry w).outcome = .ok () →
      requested (RegisterPlugins plugins registry w).trace =
        ["DesktopMultiWindowPlugin", "FlutterDesktopContextMenuPlugin", "FlutterJsPlugin",
         "PermissionHandlerWindowsPlugin", "ProxyManagerPlugin",
         "ScreenRetrieverWindowsPluginCApi", "SharePlusWindowsPluginCApi",
         "UrlLauncherWindows", "VclibsPluginCApi", "Win32audioPluginCApi",
         "WindowManagerPlugin", "ZstandardWindowsPluginCApi"] ∧
      (∀ name : String, (requested (RegisterPlugins plugins registry w).trace).count name =
        if name ∈ ["DesktopMultiWindowPlugin", "FlutterDesktopContextMenuPlugin",
          "FlutterJsPlugin", "PermissionHandlerWindowsPlugin", "ProxyManagerPlugin",
          "ScreenRetrieverWindowsPluginCApi", "SharePlusWindowsPluginCApi",
          "UrlLauncherWindows", "VclibsPluginCApi", "Win32audioPluginCApi",
          "WindowManagerPlugin", "ZstandardWindowsPluginCApi"] then 1 else 0) ∧
      (∀ entry : EntryPoint,
        (invoked (RegisterPlugins plugins registry w).trace).count entry = 1) ∧
      (requested (RegisterPlugins plugins registry w).trace).length = 12 ∧
      (invoked (RegisterPlugins plugins registry w).trace).length = 12 ∧
      (RegisterPlugins plugins registry w).trace.length = 24 ∧
      pluginHeaders.length = 12 ∧
      pluginHeaders.map headerPlugin =
        requested (RegisterPlugins plugins registry w).trace) := by
  rw [RegisterPlugins_eq_runSteps]
  have hc := runSteps_conforms plugins registry callSites w
  refine ⟨?_, ?_, ?_, ?_⟩
  · exact List.nodup_iff_count_le_one.mp (pluginNames_nodup.sublist hc.initial.1.sublist)
  · intro name hname
    exact hc.initial.1.subset hname
  · exact List.nodup_iff_count_le_one.mp (entryPoints_nodup.sublist hc.initial.2.sublist)
  · intro h
    obtain ⟨hreq, hinv, hlen, -⟩ := hc.of_ok h
    rw [hreq, hinv, hlen]
    refine ⟨rfl, ?_, ?_, rfl, rfl, rfl, rfl, by decide⟩
    · intro name
      split
      · next hm => exact List.count_eq_one_of_mem pluginNames_nodup hm
      · next hm => exact List.count_eq_zero_of_not_mem hm
    · intro entry
      exact List.count_eq_one_of_mem entryPoints_nodup (mem_entryPoints entry)

/-- Witness of C2: the run with the echo registry and the counting plugins
returns normally and makes twenty-four calls. -/
theorem twelve_lookups_twelve_registrations_witness :
    (RegisterPlugins countingPlugins echoRegistry 0).outcome = .ok () ∧
    (RegisterPlugins countingPlugins echoRegistry 0).trace.length = 24 :=
  ⟨rfl,
    ((twelve_lookups_twelve_registrations countingPlugins echoRegistry 0).2.2.2
      rfl).2.2.2.2.2.1⟩

/-- Counterexample to C2 as stated ("for every registry ... each exactly once
... none omitted"): with the registry whose lookups fail, the call stops at
the first lookup.  Only `DesktopMultiWindowPlugin` is requested, no entry point
is invoked, so `ZstandardWindowsPluginCApi` is requested zero times and
`DesktopMultiWindowPluginRegisterWithRegistrar` is invoked zero times: one
lookup and no registration instead of twelve and twelve. -/
theorem twelve_lookups_twelve_registrations_counterexample :
    (RegisterPlugins countingPlugins failingRegistry 0).outcome = .error "no registrar" ∧
    requested (RegisterPlugins countingPlugins failingRegistry 0).trace =
      ["DesktopMultiWindowPlugin"] ∧
    invoked (RegisterPlugins countingPlugins failingRegistry 0).trace = [] ∧
    (requested (RegisterPlugins countingPlugins failingRegistry 0).trace).count
      "ZstandardWindowsPluginCApi" = 0 ∧
    (invoked (RegisterPlugins countingPlugins failingRegistry 0).trace).count
      EntryPoint.DesktopMultiWindowPluginRegisterWithRegistrar = 0 ∧
    (requested (RegisterPlugins countingPlugins failingRegistry 0).trace).length = 1 ∧
    (invoked (RegisterPlugins countingPlugins failingRegistry 0).trace).length = 0 ∧
    ¬ (requested (RegisterPlugins countingPlugins failingRegistry 0).trace =
      ["DesktopMultiWindowPlugin", "FlutterDesktopContextMenuPlugin", "FlutterJsPlugin",
       "PermissionHandlerWindowsPlugin", "ProxyManagerPlugin",
       "ScreenRetrieverWindowsPluginCApi", "SharePlusWindowsPluginCApi",
       "UrlLauncherWindows", "VclibsPluginCApi", "Win32audioPluginCApi",
       "WindowManagerPlugin", "ZstandardWindowsPluginCApi"]) := by
  have hreq : requested (RegisterPlugins countingPlugins failingRegistry 0).trace =
      ["DesktopMultiWindowPlugin"] := rfl
  have hinv : invoked (RegisterPlugins countingPlugins failingRegistry 0).trace = [] := rfl
  refine ⟨rfl, hreq, hinv, ?_, ?_, ?_, ?_, ?_⟩
  · rw [hreq]; decide
  · rw [hinv]; rfl
  · rw [hreq]; rfl
  · rw [hinv]; rfl
  · rw [hreq]; decide

/-- C3. `RegisterPlugins` is the sequence of its twelve call sites, and at each
of them the string passed to `GetRegistrarForPlugin` is the name of the entry
point it feeds with the suffix `RegisterWithRegistrar` removed: the entry point's
name is the string followed by `RegisterWithRegistrar`, character for character.
Accordingly, in every run, a lookup immediately followed by the invocation of
an entry point was made under that entry point's name without the suffix. -/
theorem name_string_matches_entry_point {σ ε R : Type} (plugins : Plugins σ ε R)
    (registry : PluginRegistry σ ε R) (w : σ) :
    RegisterPlugins plugins registry = runSteps plugins registry callSites ∧
    callSites.length = 12 ∧
    (∀ c ∈ callSites, c.1.symbol = c.2 ++ "RegisterWithRegistrar" ∧
      c.1.symbol.dropRight "RegisterWithRegistrar".length = c.2) ∧
    (∀ (i : Nat) (name : String) (res : Except ε R) (entry : EntryPoint) (r : R)
        (out : Except ε Unit),
      (RegisterPlugins plugins registry w).trace[i]? = some (Event.lookup name res) →
      (RegisterPlugins plugins registry w).trace[i + 1]? = some (Event.register entry r out) →
      entry.symbol = name ++ "RegisterWithRegistrar") := by
  refine ⟨RegisterPlugins_eq_runSteps plugins registry, rfl, ?_, ?_⟩
  · intro c hc
    exact ⟨callSites_symbol c hc, callSites_plugin c hc⟩
  · rw [RegisterPlugins_eq_runSteps]
    intro i name res entry r out hlook hreg
    obtain ⟨j, name2, hj, hmem, hlook2⟩ :=
      (runSteps_conforms plugins registry callSites w).paired _ entry r out hreg
    have hji : j = i := by omega
    subst hji
    rw [hlook] at hlook2
    simp only [Option.some.injEq, Event.lookup.injEq] at hlook2
    obtain ⟨rfl, -⟩ := hlook2
    exact callSites_symbol (entry, name) hmem

/-- Witness of C3: in the run with the echo registry and the counting plugins
the lookup of `"WindowManagerPlugin"` is the twenty-first call and is followed
by the invocation of `WindowManagerPluginRegisterWithRegistrar`. -/
theorem name_string_matches_entry_point_witness :
    EntryPoint.WindowManagerPluginRegisterWithRegistrar.symbol =
      "WindowManagerPlugin" ++ "RegisterWithRegistrar" :=
  (name_string_matches_entry_point countingPlugins echoRegistry 0).2.2.2 20
    "WindowManagerPlugin" (.ok "WindowManagerPlugin")
    EntryPoint.WindowManagerPluginRegisterWithRegistrar "WindowManagerPlugin" (.ok ())
    rfl rfl

/-- C4. `RegisterPlugins` has no failure path of its own and does not catch
failures.  (i) If every lookup of the twelve names and every one of the twelve
entry points returns normally, `RegisterPlugins` returns normally, with no
value, after invoking all twelve entry points, and no call failed.  In general
it returns normally exactly when no call it made failed, and then it has
invoked all twelve entry points.  (ii) If
`RegisterPlugins` fails with `e`, then the last call it made is a lookup or an
entry point of one of its call sites, that call really returned the failure
`e`, every call before it returned normally, the entry points invoked before it
are exactly those of the call sites before the failing one, in order, and
nothing was called after it. -/
theorem failures_pass_through {σ ε R : Type} (plugins : Plugins σ ε R)
    (registry : PluginRegistry σ ε R) (w : σ) :
    ((∀ c ∈ callSites, ∀ w2, ∃ r, (registry.GetRegistrarForPlugin c.2 w2).1 = .ok r) →
     (∀ c ∈ callSites, ∀ r w2, (plugins.RegisterWithRegistrar c.1 r w2).1 = .ok ()) →
      (RegisterPlugins plugins registry w).outcome = .ok () ∧
      invoked (RegisterPlugins plugins registry w).trace = entryPoints ∧
      ∀ ev ∈ (RegisterPlugins plugins registry w).trace, ev.failure = none) ∧
    ((RegisterPlugins plugins registry w).outcome = .ok () ↔
      ∀ ev ∈ (RegisterPlugins plugins registry w).trace, ev.failure = none) ∧
    ((∀ ev ∈ (RegisterPlugins plugins registry w).trace, ev.failure = none) →
      invoked (RegisterPlugins plugins registry w).trace = entryPoints) ∧
    (∀ e : ε, (RegisterPlugins plugins registry w).outcome = .error e →
      ∃ (k : Nat) (c : CallSite) (pre : List (Event ε R)) (last : Event ε R),
        callSites[k]? = some c ∧
        (RegisterPlugins plugins registry w).trace = pre ++ [last] ∧
        (∀ ev ∈ pre, ev.failure = none) ∧
        last.failure = some e ∧
        invoked pre = entryPoints.take k ∧
        ((last = Event.lookup c.2 (.error e) ∧
            ∃ w2, (registry.GetRegistrarForPlugin c.2 w2).1 = .error e) ∨
         (∃ r, last = Event.register c.1 r (.error e) ∧
            ∃ w2, (plugins.RegisterWithRegistrar c.1 r w2).1 = .error e))) := by
  rw [RegisterPlugins_eq_runSteps]
  have hc := runSteps_conforms plugins registry callSites w
  have hg := runSteps_genuine plugins registry callSites w
  have herr : ∀ e : ε, (runSteps plugins registry callSites w).outcome = .error e →
      ∃ (k : Nat) (c : CallSite) (pre : List (Event ε R)) (last : Event ε R),
        callSites[k]? = some c ∧
        (runSteps plugins registry callSites w).trace = pre ++ [last] ∧
        (∀ ev ∈ pre, ev.failure = none) ∧
        last.failure = some e ∧
        invoked pre = entryPoints.take k ∧
        ((last = Event.lookup c.2 (.error e) ∧
            ∃ w2, (registry.GetRegistrarForPlugin c.2 w2).1 = .error e) ∨
         (∃ r, last = Event.register c.1 r (.error e) ∧
            ∃ w2, (plugins.RegisterWithRegistrar c.1 r w2).1 = .error e)) := by
    intro e he
    obtain ⟨k, c, pre, last, h1, h2, h3, h4, h5, h6⟩ := hc.of_error e he
    have hlast : last.Genuine plugins registry := hg last (by rw [h2]; simp)
    refine ⟨k, c, pre, last, h1, h2, h3, h4, by rw [h5, entryPoints, List.map_take], ?_⟩
    rcases h6 with h6 | ⟨r, h6⟩
    · subst h6; exact Or.inl ⟨rfl, hlast⟩
    · subst h6; exact Or.inr ⟨r, rfl, hlast⟩
  have hiff : (runSteps plugins registry callSites w).outcome = .ok () ↔
      ∀ ev ∈ (runSteps plugins registry callSites w).trace, ev.failure = none := by
    constructor
    · intro hok; exact (hc.of_ok hok).2.2.2
    · intro hall
      cases ho : (runSteps plugins registry callSites w).outcome with
      | ok u => rfl
      | error e =>
        obtain ⟨k, c, pre, last, -, h2, -, h4, -, -⟩ := herr e ho
        have := hall last (by rw [h2]; simp)
        rw [h4] at this
        cases this
  refine ⟨?_, hiff, fun hall => (hc.of_ok (hiff.mpr hall)).2.1, herr⟩
  intro hreg hplug
  have hok : (runSteps plugins registry callSites w).outcome = .ok () := by
    cases ho : (runSteps plugins registry callSites w).outcome with
    | ok u => rfl
    | error e =>
      obtain ⟨k, c, pre, last, h1, -, -, -, -, h6⟩ := herr e ho
      have hmem : c ∈ callSites := List.getElem?_mem h1
      rcases h6 with ⟨-, w2, hw2⟩ | ⟨r, -, w2, hw2⟩
      · obtain ⟨r, hr⟩ := hreg c hmem w2
        rw [hr] at hw2
        cases hw2
      · rw [hplug c hmem r w2] at hw2
        cases hw2
  exact ⟨hok, (hc.of_ok hok).2.1, (hc.of_ok hok).2.2.2⟩

/-- Witness of C4: with the echo registry and the counting plugins every call
returns normally and so does `RegisterPlugins`; with the plugins whose
`FlutterJsPlugin` registration fails, `RegisterPlugins` fails with that
failure and stops there. -/
theorem failures_pass_through_witness :
    ((RegisterPlugins countingPlugins echoRegistry 0).outcome = .ok () ∧
      invoked (RegisterPlugins countingPlugins echoRegistry 0).trace = entryPoints ∧
      ∀ ev ∈ (RegisterPlugins countingPlugins echoRegistry 0).trace, ev.failure = none) ∧
    (RegisterPlugins failingPlugins echoRegistry 0).outcome = .error "FlutterJsPlugin failed" ∧
    ∃ (k : Nat) (c : CallSite) (pre : List (Event String String)) (last : Event String String),
        callSites[k]? = some c ∧
        (RegisterPlugins failingPlugins echoRegistry 0).trace = pre ++ [last] ∧
        (∀ ev ∈ pre, ev.failure = none) ∧
        last.failure = some "FlutterJsPlugin failed" ∧
        invoked pre = entryPoints.take k ∧
        ((last = Event.lookup c.2 (.error "FlutterJsPlugin failed") ∧
            ∃ w2, (echoRegistry.GetRegistrarForPlugin c.2 w2).1 =
              .error "FlutterJsPlugin failed") ∨
         (∃ r, last = Event.register c.1 r (.error "FlutterJsPlugin failed") ∧
            ∃ w2, (failingPlugins.RegisterWithRegistrar c.1 r w2).1 =
              .error "FlutterJsPlugin failed")) :=
  ⟨(failures_pass_through countingPlugins echoRegistry 0).1
      (fun c _ _ => ⟨c.2, rfl⟩) (fun _ _ _ _ => rfl),
    rfl,
    (failures_pass_through failingPlugins echoRegistry 0).2.2.2 "FlutterJsPlugin failed" rfl⟩

/-- C5. Over the explicit registry state in which a registration installs the
plugin under the name of the registrar it is handed: performing the twelve
statements of `RegisterPlugins` in any permuted order returns normally and
leaves the same registry state as `RegisterPlugins`; that state has each of the
twelve plugins installed under its name and every other name as it was
initially; and any two of the twelve statements commute. -/
theorem registrations_order_insensitive (st : Installed) (l : List CallSite)
    (hl : l.Perm callSites) :
    (runSteps installingPlugins slotRegistry l st).outcome = .ok () ∧
    (runSteps installingPlugins slotRegistry l st).world =
      (RegisterPlugins installingPlugins slotRegistry st).world ∧
    (∀ c ∈ callSites,
      (RegisterPlugins installingPlugins slotRegistry st).world c.2 = some c.1) ∧
    (∀ k, k ∉ pluginNames →
      (RegisterPlugins installingPlugins slotRegistry st).world k = st k) ∧
    (∀ a ∈ callSites, ∀ b ∈ callSites, ∀ st2 : Installed,
      (runSteps installingPlugins slotRegistry [a, b] st2).world =
        (runSteps installingPlugins slotRegistry [b, a] st2).world) := by
  rw [RegisterPlugins_eq_runSteps]
  have hn : (l.map Prod.snd).Nodup := (hl.map Prod.snd).nodup_iff.mpr pluginNames_nodup
  obtain ⟨-, h2, h3⟩ := runSteps_slot_world callSites pluginNames_nodup st
  refine ⟨(runSteps_slot_world l hn st).1,
    runSteps_slot_perm l callSites hl pluginNames_nodup st, h2, h3, ?_⟩
  intro a ha b hb st2
  by_cases hab : a = b
  · rw [hab]
  · have hne : b.2 ≠ a.2 := fun h => hab (callSites_name_injective a ha b hb h.symm)
    exact runSteps_slot_perm [a, b] [b, a] (List.Perm.swap b a []) (by simp [hne]) st2

/-- Witness of C5: the twelve statements in reverse order, from the empty
registry, leave the same state as `RegisterPlugins`. -/
theorem registrations_order_insensitive_witness :
    callSites.reverse.Perm callSites ∧
    (runSteps installingPlugins slotRegistry callSites.reverse (fun _ => none)).world =
      (RegisterPlugins installingPlugins slotRegistry (fun _ => none)).world :=
  ⟨List.reverse_perm callSites,
    (registrations_order_insensitive (fun _ => none) callSites.reverse
      (List.reverse_perm callSites)).2.1⟩

/-- C6, as amended.  `RegisterPlugins` does not branch on the registry.  For
any two registries, plugins and initial worlds (of whatever types): when both
calls return normally they request the same names and invoke the same entry
points, in the same order, the textual order of the file
(`DesktopMultiWindowPlugin` first, `ZstandardWindowsPluginCApi` last); in every
call, returning or not, the names requested and the entry points invoked are
initial parts of those fixed sequences, so of two calls the sequences of one
are initial parts of the sequences of the other; and the only input of a
registration is the registrar returned by the lookup just before it (entry
points return no value that could be passed on). -/
theorem call_sequence_independent_of_registry {σ ε R σ2 ε2 R2 : Type}
    (plugins : Plugins σ ε R) (registry : PluginRegistry σ ε R) (w : σ)
    (plugins2 : Plugins σ2 ε2 R2) (registry2 : PluginRegistry σ2 ε2 R2) (w2 : σ2) :
    ((RegisterPlugins plugins registry w).outcome = .ok () →
     (RegisterPlugins plugins2 registry2 w2).outcome = .ok () →
      requested (RegisterPlugins plugins registry w).trace =
        requested (RegisterPlugins plugins2 registry2 w2).trace ∧
      invoked (RegisterPlugins plugins registry w).trace =
        invoked (RegisterPlugins plugins2 registry2 w2).trace ∧
      requested (RegisterPlugins plugins registry w).trace =
        ["DesktopMultiWindowPlugin", "FlutterDesktopContextMenuPlugin", "FlutterJsPlugin",
         "PermissionHandlerWindowsPlugin", "ProxyManagerPlugin",
         "ScreenRetrieverWindowsPluginCApi", "SharePlusWindowsPluginCApi",
         "UrlLauncherWindows", "VclibsPluginCApi", "Win32audioPluginCApi",
         "WindowManagerPlugin", "ZstandardWindowsPluginCApi"] ∧
      invoked (RegisterPlugins plugins registry w).trace =
        [EntryPoint.DesktopMultiWindowPluginRegisterWithRegistrar,
         EntryPoint.FlutterDesktopContextMenuPluginRegisterWithRegistrar,
         EntryPoint.FlutterJsPluginRegisterWithRegistrar,
         EntryPoint.PermissionHandlerWindowsPluginRegisterWithRegistrar,
         EntryPoint.ProxyManagerPluginRegisterWithRegistrar,
         EntryPoint.ScreenRetrieverWindowsPluginCApiRegisterWithRegistrar,
         EntryPoint.SharePlusWindowsPluginCApiRegisterWithRegistrar,
         EntryPoint.UrlLauncherWindowsRegisterWithRegistrar,
         EntryPoint.VclibsPluginCApiRegisterWithRegistrar,
         EntryPoint.Win32audioPluginCApiRegisterWithRegistrar,
         EntryPoint.WindowManagerPluginRegisterWithRegistrar,
         EntryPoint.ZstandardWindowsPluginCApiRegisterWithRegistrar]) ∧
    (requested (RegisterPlugins plugins registry w).trace <+: pluginNames ∧
      invoked (RegisterPlugins plugins registry w).trace <+: entryPoints) ∧
    (requested (RegisterPlugins plugins registry w).trace <+:
        requested (RegisterPlugins plugins2 registry2 w2).trace ∨
      requested (RegisterPlugins plugins2 registry2 w2).trace <+:
        requested (RegisterPlugins plugins registry w).trace) ∧
    (invoked (RegisterPlugins plugins registry w).trace <+:
        invoked (RegisterPlugins plugins2 registry2 w2).trace ∨
      invoked (RegisterPlugins plugins2 registry2 w2).trace <+:
        invoked (RegisterPlugins plugins registry w).trace) ∧
    (∀ (i : Nat) (entry : EntryPoint) (r : R) (out : Except ε Unit),
      (RegisterPlugins plugins registry w).trace[i]? = some (Event.register entry r out) →
      ∃ j, i = j + 1 ∧
        (RegisterPlugins plugins registry w).trace[j]? =
          some (Event.lookup entry.plugin (.ok r))) := by
  rw [RegisterPlugins_eq_runSteps, RegisterPlugins_eq_runSteps]
  have hc := runSteps_conforms plugins registry callSites w
  have hc2 := runSteps_conforms plugins2 registry2 callSites w2
  refine ⟨?_, hc.initial, ?_, ?_, ?_⟩
  · intro hok hok2
    obtain ⟨a1, a2, -, -⟩ := hc.of_ok hok
    obtain ⟨b1, b2, -, -⟩ := hc2.of_ok hok2
    exact ⟨by rw [a1, b1], by rw [a2, b2], by rw [a1]; rfl, by rw [a2]; rfl⟩
  · exact List.prefix_or_prefix_of_prefix hc.initial.1 hc2.initial.1
  · exact List.prefix_or_prefix_of_prefix hc.initial.2 hc2.initial.2
  · intro i entry r out hi
    obtain ⟨j, name, hj, hmem, hlook⟩ := hc.paired i entry r out hi
    have hname := callSites_plugin (entry, name) hmem
    simp only at hname
    exact ⟨j, hj, by rw [hname]; exact hlook⟩

/-- Witness of C6: the echo registry with counting plugins over a counter, and
the slot registry with installing plugins over the explicit registry state,
both return, and their runs request the same names in the same order. -/
theorem call_sequence_independent_of_registry_witness :
    (RegisterPlugins countingPlugins echoRegistry 0).outcome = .ok () ∧
    (RegisterPlugins installingPlugins slotRegistry (fun _ => none)).outcome = .ok () ∧
    requested (RegisterPlugins countingPlugins echoRegistry 0).trace =
      requested (RegisterPlugins installingPlugins slotRegistry (fun _ => none)).trace :=
  ⟨rfl, rfl,
    ((call_sequence_independent_of_registry countingPlugins echoRegistry 0
      installingPlugins slotRegistry (fun _ => none)).1 rfl rfl).1⟩

/-- Counterexample to C6 as stated ("for any two registries ... the sequences
are identical"): under the same plugins and initial world, the registry whose
lookups fail and the echo registry give different sequences.  The first call
requests one name and invokes nothing, the second requests twelve names and
invokes twelve entry points. -/
theorem call_sequence_independent_of_registry_counterexample :
    requested (RegisterPlugins countingPlugins failingRegistry 0).trace ≠
      requested (RegisterPlugins countingPlugins echoRegistry 0).trace ∧
    invoked (RegisterPlugins countingPlugins failingRegistry 0).trace ≠
      invoked (RegisterPlugins countingPlugins echoRegistry 0).trace ∧
    (requested (RegisterPlugins countingPlugins failingRegistry 0).trace).length = 1 ∧
    (requested (RegisterPlugins countingPlugins echoRegistry 0).trace).length = 12 ∧
    (invoked (RegisterPlugins countingPlugins failingRegistry 0).trace).length = 0 ∧
    (invoked (RegisterPlugins countingPlugins echoRegistry 0).trace).length = 12 := by
  have a1 : requested (RegisterPlugins countingPlugins failingRegistry 0).trace =
      ["DesktopMultiWindowPlugin"] := rfl
  have a2 : invoked (RegisterPlugins countingPlugins failingRegistry 0).trace = [] := rfl
  have b1 : requested (RegisterPlugins countingPlugins echoRegistry 0).trace =
      pluginNames := rfl
  have b2 : invoked (RegisterPlugins countingPlugins echoRegistry 0).trace =
      entryPoints := rfl
  refine ⟨?_, ?_, ?_, ?_, ?_, ?_⟩
  · rw [a1, b1]; decide
  · rw [a2, b2]; decide
  · rw [a1]; rfl
  · rw [b1]; rfl
  · rw [a2]; rfl
  · rw [b2]; rfl

/-- C7. The names requested by a run of `RegisterPlugins`, in call order, are
strictly increasing in the lexicographic order of their bytes, hence pairwise
distinct; this holds of the twelve names of the source (where
`Win32audioPluginCApi` precedes `WindowManagerPlugin` and
`FlutterDesktopContextMenuPlugin` precedes `FlutterJsPlugin`), which are what a
run that returns normally requests. -/
theorem requested_names_strictly_increasing {σ ε R : Type} (plugins : Plugins σ ε R)
    (registry : PluginRegistry σ ε R) (w : σ) :
    List.Sorted (fun a b => bytes a < bytes b)
      (requested (RegisterPlugins plugins registry w).trace) ∧
    (requested (RegisterPlugins plugins registry w).trace).Nodup ∧
    List.Sorted (fun a b => bytes a < bytes b) pluginNames ∧
    pluginNames.Nodup ∧
    bytes "Win32audioPluginCApi" < bytes "WindowManagerPlugin" ∧
    bytes "FlutterDesktopContextMenuPlugin" < bytes "FlutterJsPlugin" ∧
    ((RegisterPlugins plugins registry w).outcome = .ok () →
      requested (RegisterPlugins plugins registry w).trace = pluginNames) := by
  rw [RegisterPlugins_eq_runSteps]
  have hc := runSteps_conforms plugins registry callSites w
  exact ⟨pluginNames_sorted.sublist hc.initial.1.sublist,
    pluginNames_nodup.sublist hc.initial.1.sublist, pluginNames_sorted, pluginNames_nodup,
    by decide, by decide, fun hok => (hc.of_ok hok).1⟩

/-- Witness of C7: the run with the echo registry and the counting plugins
returns normally and requests the twelve names. -/
theorem requested_names_strictly_increasing_witness :
    (RegisterPlugins countingPlugins echoRegistry 0).outcome = .ok () ∧
    requested (RegisterPlugins countingPlugins echoRegistry 0).trace = pluginNames :=
  ⟨rfl, (requested_names_strictly_increasing countingPlugins echoRegistry 0).2.2.2.2.2.2 rfl⟩

end PluginRegistrant
